import Mathlib

/-!
Verification development for the rendering core of `node-librenms-weathermap`
(`src/index.ts`).  The TypeScript source is shallowly embedded below:

* JavaScript numbers are modelled by exact rationals (`ℚ`).  Every concrete
  value evaluated in this development (integer coordinates, integer traffic
  rates, the half-integer stroke widths) is represented exactly by an IEEE-754
  double, so double arithmetic and rational arithmetic agree on them.
* The one non-finite double value reachable in the rendering core is `NaN`
  (from `0/0` when a connection has zero length).  Numbers that may be `NaN`
  are modelled by `Option ℚ`, with `none` standing for `NaN`.
* Fixed data (the default color table, string templates) is transcribed
  verbatim from the source.
-/

namespace Weathermap

/-! ## JavaScript number model -/

/-- A JavaScript number that may be `NaN`: `none` models `NaN`, `some q` a
finite value.  (`±Infinity` is unreachable in the rendering core: the only
divisions are by a vector length and by `|u.y|`, and whenever those divisors
are zero the dividend is zero as well, giving `NaN`, not `Infinity`.) -/
abbrev JNum := Option ℚ

/-- Addition; `NaN` propagates, as in JavaScript. -/
def jadd : JNum → JNum → JNum
  | some a, some b => some (a + b)
  | _, _ => none

/-- Subtraction; `NaN` propagates. -/
def jsub : JNum → JNum → JNum
  | some a, some b => some (a - b)
  | _, _ => none

/-- Multiplication; `NaN` propagates.  (JavaScript's `0 * Infinity = NaN` and
similar infinity rules are irrelevant here because `Infinity` is unreachable.) -/
def jmul : JNum → JNum → JNum
  | some a, some b => some (a * b)
  | _, _ => none

/-- Division; `NaN` propagates and division by zero is non-finite.  In the
rendering core a zero divisor only ever occurs with a zero dividend
(`0/0 = NaN`), which `none` models exactly; the `x/0 = ±Infinity` case is
unreachable and is also sent to `none`. -/
def jdiv : JNum → JNum → JNum
  | some a, some b => if b = 0 then none else some (a / b)
  | _, _ => none

/-- Model of `Math.abs`: note `Math.abs(NaN) = NaN`. -/
def jabs : JNum → JNum
  | some a => some |a|
  | none => none

/-- Floor-exact rational model of `Math.sqrt`: `sqrt (n/d) = sqrt (n*d) / d`,
computed with `Nat.sqrt`.  It is exact whenever `num*den` is a perfect square,
which covers every concrete radicand evaluated in this development (where the
double computation is exact too); on other positive rationals it is a
floor-style approximation that is still positive, which is all the general
theorems below use.  Negative input (unreachable: the radicand is a sum of
squares) yields `0`. -/
def ratSqrt (q : ℚ) : ℚ :=
  if q ≤ 0 then 0 else (Nat.sqrt (q.num.toNat * q.den) : ℚ) / (q.den : ℚ)

/-- Decimal rendering of a nonnegative rational that a double would print
exactly: integers print as plain decimals and half-integers with a `.5`
suffix, exactly as JavaScript prints them.  Other denominators (never hit by
the concrete evaluations in this file, and not exactly representable as
doubles anyway) get a fraction fallback. -/
def fmtNonneg (q : ℚ) : String :=
  if q.den = 1 then toString q.num.toNat
  else if q.den = 2 then toString (q.num.toNat / 2) ++ ".5"
  else toString q.num.toNat ++ "/" ++ toString q.den

/-- String interpolation of a finite JavaScript number (model of `${x}`). -/
def fmtQ (q : ℚ) : String :=
  if q < 0 then "-" ++ fmtNonneg (-q) else fmtNonneg q

/-- String interpolation of a possibly-`NaN` number: JavaScript prints `NaN`
as the string `"NaN"`. -/
def jstr : JNum → String
  | none => "NaN"
  | some q => fmtQ q

/-- Model of `Array.prototype.join(sep)`. -/
def joinSep (sep : String) : List String → String
  | [] => ""
  | [x] => x
  | x :: y :: xs => x ++ sep ++ joinSep sep (y :: xs)

/-- Model of the `xml-escape` package: replaces the five XML special
characters by entities, leaves everything else unchanged. -/
def xmlescapeChar (c : Char) : String :=
  if c = '&' then "&amp;"
  else if c = '<' then "&lt;"
  else if c = '>' then "&gt;"
  else if c = Char.ofNat 34 then "&quot;"
  else if c = Char.ofNat 39 then "&apos;"
  else String.singleton c

/-- Model of `xmlescape(s)`. -/
def xmlescape (s : String) : String :=
  String.join (s.data.map xmlescapeChar)

/-! ## Data model (`src/index.ts` interfaces)

`speed` and the device fields typed with string-literal unions in TypeScript
are modelled as plain strings: TypeScript types are erased at runtime and the
code branches on string equality, with explicit fallbacks for unknown values
which the spec's claims mention (unknown speed, unknown device type). -/

/-- Model of `ConnectionData` (source lines 97–105).  Coordinates are finite numbers;
traffic rates are in bps with `-1` as the inactive sentinel. -/
structure ConnectionData where
  from_x : ℚ
  from_y : ℚ
  to_x : ℚ
  to_y : ℚ
  speed : String
  outboundTraffic : ℚ
  inboundTraffic : ℚ
deriving DecidableEq

/-- Model of `DeviceData` (source lines 109–115). -/
structure DeviceData where
  type : String
  name : String
  render_x : ℚ
  render_y : ℚ
  label_position : String
deriving DecidableEq

/-- Model of `SiteData` (source lines 88–95, 107). -/
structure SiteData where
  name : String
  render_x : ℚ
  render_y : ℚ
  width : ℚ
  height : ℚ
  label_position : String
deriving DecidableEq

/-- Model of `ColorDefinition = Record<number, string>` (source line 45): a JavaScript
object with numeric keys, modelled as an association list with integer keys
(all keys occurring in the program are integers; `Object.keys` stringifies
them and `getStrokeColor` re-parses them with `parseInt`).  Keys of a
JavaScript object are unique. -/
abbrev ColorDefinition := List (Int × String)

/-- Model of `RenderData` (source lines 117–125). -/
structure RenderData where
  title : String
  width : ℚ
  height : ℚ
  devices : List DeviceData
  sites : List SiteData
  connections : List ConnectionData
  colors : ColorDefinition
deriving DecidableEq

/-- Model of `DEFAULT_COLORS` (source lines 47–56), transcribed verbatim in source
order.  (`Object.keys` enumerates the non-negative integer keys first and the
`-1` key last, but `getStrokeColor` sorts the keys, so enumeration order is
irrelevant; the keys are pairwise distinct.) -/
def DEFAULT_COLORS : ColorDefinition :=
  [(-1, "#cccccc"), -- inactive
   (0, "#000000"),
   (1000000, "#0000ff"),
   (10000000, "#00cccc"),
   (25000000, "#00ff00"),
   (50000000, "#cccc00"),
   (75000000, "#ee7000"),
   (100000000, "#ff0000")]

/-- The colors-defaulting subexpression of `fetchRenderData` (source line
246): `config.colors || DEFAULT_COLORS`.  An absent `colors` field
(`undefined`, modelled `none`) is falsy, so the default table is used;
a supplied table (even an empty object, which is truthy in JavaScript) is
used as-is. -/
def resolveColors : Option ColorDefinition → ColorDefinition
  | none => DEFAULT_COLORS
  | some m => m

/-! ## Color-band resolver (`getStrokeColor`, source lines 317–321) -/

/-- Insert into a descending-sorted list (helper for `sortDesc`). -/
def insertDesc (x : Int) : List Int → List Int
  | [] => [x]
  | y :: ys => if y ≤ x then x :: y :: ys else y :: insertDesc x ys

/-- Model of `.sort((a, b) => b - a)`: sort descending. -/
def sortDesc : List Int → List Int
  | [] => []
  | x :: xs => insertDesc x (sortDesc xs)

/-- Model of the JavaScript expression `speed || fallback` at source line 320:
`undefined` (`none`) and the number `0` are both falsy, so either makes the
expression evaluate to the fallback. -/
def jsOr (speed : Option Int) (fallback : Option Int) : Option Int :=
  match speed with
  | none => fallback
  | some s => if s = 0 then fallback else some s

/-- Model of `colors[key] || '#000000'` at source line 320: an absent key
(including `colors[undefined]`) and an empty-string value are falsy, yielding
black. -/
def lookupColor (colors : ColorDefinition) (key : Option Int) : String :=
  match key with
  | none => "#000000"
  | some k =>
    match colors.lookup k with
    | none => "#000000"
    | some c => if c = "" then "#000000" else c

/-- Model of `getStrokeColor` (source lines 317–321):
collect the keys, sort descending, find the first (= largest) threshold
`≤ traffic`, and look its color up — except that the JavaScript `||` sends
both `undefined` and the threshold `0` to the fallback
`sortedSpeeds[sortedSpeeds.length - 1]` (the smallest threshold). -/
def getStrokeColor (traffic : ℚ) (colors : ColorDefinition) : String :=
  let sortedSpeeds := sortDesc (colors.map Prod.fst)
  let speed := sortedSpeeds.find? (fun s : Int => decide ((s : ℚ) ≤ traffic))
  lookupColor colors (jsOr speed sortedSpeeds.getLast?)

/-! ## Traffic formatting (`formatTraffic`, source lines 293–304) -/

/-- Two-digit zero-padded rendering of a number below 100 (the fractional
part produced by `toFixed(2)`). -/
def pad2 (k : Nat) : String :=
  if k < 10 then "0" ++ toString k else toString k

/-- Model of `Number.prototype.toFixed(2)` on a nonnegative value: round the
exact rational to the nearest multiple of `1/100` (half-up) and print with
exactly two decimals.  A double's `toFixed` rounds the double's exact binary
value to nearest; the two agree at every value this development evaluates
(none of which is within a double rounding error of a two-decimal tie).
Negative input never reaches `toFixed` in the source (`traffic < 0` returns
early). -/
def toFixed2 (q : ℚ) : String :=
  let n : Nat := (⌊q * 100 + 1/2⌋).toNat
  toString (n / 100) ++ "." ++ pad2 (n % 100)

/-- Model of `formatTraffic` (source lines 293–304). -/
def formatTraffic (traffic : ℚ) : String :=
  if traffic < 0 then "Inactive"
  else if traffic < 100000 then toFixed2 (traffic / 1000) ++ " kbps"
  else if traffic < 100000000 then toFixed2 (traffic / 1000000) ++ " Mbps"
  else toFixed2 (traffic / 1000000000) ++ " Gbps"

/-! ## Stroke width (`getStrokeWidth`, source lines 313–315) -/

/-- Model of `getStrokeWidth` (source lines 313–315): a ternary chain on the speed
string, with `0` for anything outside the enumerated set. -/
def getStrokeWidth (speed : String) : ℚ :=
  if speed = "10M" then 1/2
  else if speed = "100M" then 1
  else if speed = "1G" then 2
  else if speed = "10G" then 4
  else if speed = "40G" then 6
  else if speed = "100G" then 8
  else 0

/-! ## Link geometry (`renderConnection`, source lines 323–362)

The source computes the geometry in `let` bindings and reassigns the four
label coordinates inside an `if`; the bindings are factored into top-level
definitions (same expressions), and the reassignment becomes an
`if`-selection. -/

/-- Model of `trafficTextWidth` (source line 331). -/
def trafficTextWidth : ℚ := 72

/-- Model of `middleX` (source line 324). -/
def middleX (c : ConnectionData) : ℚ := c.from_x + (c.to_x - c.from_x) / 2

/-- Model of `middleY` (source line 325). -/
def middleY (c : ConnectionData) : ℚ := c.from_y + (c.to_y - c.from_y) / 2

/-- Model of `spanX` (source line 326). -/
def spanX (c : ConnectionData) : ℚ := |c.to_x - c.from_x|

/-- Model of `spanY` (source line 327). -/
def spanY (c : ConnectionData) : ℚ := |c.to_y - c.from_y|

/-- Model of the local `length` (source line 328): Euclidean length of the connection vector. -/
def connLength (c : ConnectionData) : ℚ :=
  ratSqrt ((c.to_x - c.from_x) ^ 2 + (c.to_y - c.from_y) ^ 2)

/-- Model of `normalizedVectorX` (source line 329); `NaN` when the length is zero. -/
def normalizedVectorX (c : ConnectionData) : JNum :=
  jdiv (some (c.to_x - c.from_x)) (some (connLength c))

/-- Model of `normalizedVectorY` (source line 330); `NaN` when the length is zero. -/
def normalizedVectorY (c : ConnectionData) : JNum :=
  jdiv (some (c.to_y - c.from_y)) (some (connLength c))

/-- The default label offset `trafficTextWidth / 2 + 8 + strokeWidth * 6`
(source lines 333–336). -/
def defaultLabelOffset (strokeWidth : ℚ) : ℚ :=
  trafficTextWidth / 2 + 8 + strokeWidth * 6

/-- The overlap-avoidance `factor = (12 + strokeWidth * 6) /
Math.abs(normalizedVectorY)` (source line 338). -/
def labelFactor (c : ConnectionData) : JNum :=
  jdiv (some (12 + getStrokeWidth c.speed * 6)) (jabs (normalizedVectorY c))

/-- The condition of the overlap-avoidance branch, `spanY > 48 && spanX < 192`
(source line 337). -/
def vertOverlap (c : ConnectionData) : Prop :=
  48 < spanY c ∧ spanX c < 192

instance (c : ConnectionData) : Decidable (vertOverlap c) :=
  inferInstanceAs (Decidable (_ ∧ _))

/-- Model of `outboundTrafficLabelX` after the conditional reassignment
(source lines 333, 337–339). -/
def outboundTrafficLabelX (c : ConnectionData) : JNum :=
  if vertOverlap c then
    jsub (some (middleX c)) (jmul (normalizedVectorX c) (labelFactor c))
  else
    jsub (some (middleX c))
      (jmul (normalizedVectorX c) (some (defaultLabelOffset (getStrokeWidth c.speed))))

/-- Model of `outboundTrafficLabelY` (source lines 334, 340). -/
def outboundTrafficLabelY (c : ConnectionData) : JNum :=
  if vertOverlap c then
    jsub (some (middleY c)) (jmul (normalizedVectorY c) (labelFactor c))
  else
    jsub (some (middleY c))
      (jmul (normalizedVectorY c) (some (defaultLabelOffset (getStrokeWidth c.speed))))

/-- Model of `inboundTrafficLabelX` (source lines 335, 341). -/
def inboundTrafficLabelX (c : ConnectionData) : JNum :=
  if vertOverlap c then
    jadd (some (middleX c)) (jmul (normalizedVectorX c) (labelFactor c))
  else
    jadd (some (middleX c))
      (jmul (normalizedVectorX c) (some (defaultLabelOffset (getStrokeWidth c.speed))))

/-- Model of `inboundTrafficLabelY` (source lines 336, 342). -/
def inboundTrafficLabelY (c : ConnectionData) : JNum :=
  if vertOverlap c then
    jadd (some (middleY c)) (jmul (normalizedVectorY c) (labelFactor c))
  else
    jadd (some (middleY c))
      (jmul (normalizedVectorY c) (some (defaultLabelOffset (getStrokeWidth c.speed))))

/-! ## Markers and primitive renderers -/

/-- Remove the first `#` of a string, as `String(color).replace('#', '')`
does (a string pattern replaces only the first occurrence in JavaScript). -/
def dropFirstHash : List Char → List Char
  | [] => []
  | c :: cs => if c = '#' then cs else c :: dropFirstHash cs

/-- Model of `getArrowMarkerId` (source lines 277–279). -/
def getArrowMarkerId (color : String) : String :=
  "arrow-" ++ String.mk (dropFirstHash color.data)

/-- Model of `createArrowMarker` (source lines 281–283). -/
def createArrowMarker (color : String) : String :=
  "<marker id=\"" ++ getArrowMarkerId color ++ "\" viewBox=\"0 0 10 10\" refX=\"8\" refY=\"5\" markerWidth=\"6\" markerHeight=\"6\" markerUnits=\"strokeWidth\" orient=\"auto-start-reverse\" fill=\"" ++ color ++ "\"><use xlink:href=\"#arrow-marker\"/></marker>"

/-- Model of `renderBackground` (source lines 285–287). -/
def renderBackground (width height : ℚ) : String :=
  "<rect x=\"0\" y=\"0\" width=\"" ++ fmtQ width ++ "\" height=\"" ++ fmtQ height ++ "\" fill=\"#f2f2f2\" stroke=\"none\"/>"

/-- Model of `renderDiagramTitle` (source lines 289–291), with the default
`fontSize = 24` it is always called with. -/
def renderDiagramTitle (title : String) : String :=
  let fontSize : ℚ := 24
  "<text x=\"50%\" y=\"" ++ fmtQ (fontSize * 2) ++ "\" text-anchor=\"middle\" font-size=\"" ++ fmtQ fontSize ++ "\">" ++ xmlescape title ++ "</text>"

/-- Model of `renderTraffic` (source lines 306–311), with the default `fontSize = 12`
it is always called with.  The anchor coordinates may be `NaN`. -/
def renderTraffic (x y : JNum) (traffic : ℚ) : String :=
  let fontSize : ℚ := 12
  let width := fontSize * 6
  let rect := "<rect x=\"" ++ jstr (jsub x (some (width / 2))) ++ "\" y=\"" ++ jstr (jsub y (some (fontSize * (3/4)))) ++ "\" width=\"" ++ fmtQ width ++ "\" height=\"" ++ fmtQ (fontSize * (3/2)) ++ "\" fill=\"#ffffff\" stroke=\"#000000\" stroke-miterlimit=\"10\"/>"
  let text := "<text x=\"" ++ jstr x ++ "\" y=\"" ++ jstr (jadd y (some (fontSize / 2))) ++ "\" text-anchor=\"middle\" font-size=\"" ++ fmtQ fontSize ++ "\" fill=\"#000000\" stroke=\"none\">" ++ xmlescape (formatTraffic traffic) ++ "</text>"
  rect ++ "\n" ++ text

/-- The arrow `path` template shared by the outbound and inbound arrows
(source lines 353–354). -/
def arrowPath (x1 y1 x2 y2 : ℚ) (color : String) (strokeWidth : ℚ) : String :=
  ("<path d=\"M " ++ fmtQ x1 ++ " " ++ fmtQ y1 ++ " L " ++ fmtQ x2 ++ " " ++ fmtQ y2 ++ "\" stroke=\"" ++ color ++ "\" stroke-width=\"" ++ fmtQ strokeWidth ++ "\" marker-end=\"") ++ ("url(#" ++ (getArrowMarkerId color ++ ")\"/>"))

/-- Result record of `renderConnection` (source lines 357–361). -/
structure ConnectionRender where
  arrowElements : List String
  labelElements : List String
  defsElements : List String
deriving DecidableEq

/-- Model of `renderConnection` (source lines 323–362). -/
def renderConnection (connection : ConnectionData) (colors : ColorDefinition) : ConnectionRender :=
  let strokeWidth := getStrokeWidth connection.speed
  let outboundColor := getStrokeColor connection.outboundTraffic colors
  let inboundColor := getStrokeColor connection.inboundTraffic colors
  { arrowElements := [
      arrowPath connection.from_x connection.from_y (middleX connection) (middleY connection) outboundColor strokeWidth,
      arrowPath connection.to_x connection.to_y (middleX connection) (middleY connection) inboundColor strokeWidth ],
    labelElements := [
      renderTraffic (outboundTrafficLabelX connection) (outboundTrafficLabelY connection) connection.outboundTraffic,
      renderTraffic (inboundTrafficLabelX connection) (inboundTrafficLabelY connection) connection.inboundTraffic ],
    defsElements := [createArrowMarker outboundColor, createArrowMarker inboundColor] }

/-- Model of `renderDevice` (source lines 364–382).  The `switch` statement's default
case leaves the icon markup empty and the height at 50. -/
def renderDevice (device : DeviceData) : String :=
  let p : String × ℚ :=
    if device.type = "switch" then
      ("<use xlink:href=\"#switch\" x=\"" ++ fmtQ device.render_x ++ "\" y=\"" ++ fmtQ device.render_y ++ "\"/>", 50)
    else if device.type = "router" then
      ("<use xlink:href=\"#router\" x=\"" ++ fmtQ device.render_x ++ "\" y=\"" ++ fmtQ device.render_y ++ "\"/>", 50)
    else if device.type = "cloud" then
      ("<use xlink:href=\"#cloud\" x=\"" ++ fmtQ device.render_x ++ "\" y=\"" ++ fmtQ device.render_y ++ "\"/>", 80)
    else ("", 50)
  let labelY := if device.label_position = "top" then device.render_y - (p.2 / 2 + 4)
                else device.render_y + (p.2 / 2 + 20)
  let labelSvg := "<text x=\"" ++ fmtQ device.render_x ++ "\" y=\"" ++ fmtQ labelY ++ "\" text-anchor=\"middle\" font-size=\"16\" fill=\"#000000\" stroke=\"none\">" ++ xmlescape device.name ++ "</text>"
  p.1 ++ "\n" ++ labelSvg

/-- Model of `renderSite` (source lines 384–389). -/
def renderSite (site : SiteData) : String :=
  let siteSvg := "<rect x=\"" ++ fmtQ site.render_x ++ "\" y=\"" ++ fmtQ site.render_y ++ "\" width=\"" ++ fmtQ site.width ++ "\" height=\"" ++ fmtQ site.height ++ "\" rx=\"16\" fill=\"#ffffff\" stroke=\"#000000\" stroke-miterlimit=\"10\"/>"
  let labelY := if site.label_position = "top" then site.render_y + 24
                else site.render_y + site.height - 8
  let labelSvg := "<text x=\"" ++ fmtQ (site.render_x + site.width / 2) ++ "\" y=\"" ++ fmtQ labelY ++ "\" text-anchor=\"middle\" font-size=\"16\" fill=\"#000000\" stroke=\"none\">" ++ xmlescape site.name ++ "</text>"
  siteSvg ++ "\n" ++ labelSvg

/-- Model of `renderDate` (source lines 391–396).  The impure wall-clock read and the
ISO-date formatting `(new Date()).toISOString()` with the `T` replaced by a
space and the fractional seconds stripped happen outside the rendering
arithmetic; the resulting text is the `now` parameter here, the only
non-input-derived datum of the whole renderer. -/
def renderDate (renderData : RenderData) (now : String) : String :=
  "<text x=\"" ++ fmtQ (renderData.width - 8) ++ "\" y=\"" ++ fmtQ (renderData.height - 8) ++ "\" text-anchor=\"end\" font-size=\"12\" fill=\"#000000\" stroke=\"none\">" ++ xmlescape now ++ "</text>"

/-! ## Document assembly (`renderToSvg` and `render`, source lines 251–275
and 398–421) -/

/-- The fixed icon and marker definitions inside the `defs` block of the
document template (source lines 257–269), transcribed verbatim. -/
def staticDefs : String :=
  "  <g id=\"router\" transform=\"translate(-25, -25)\">\n" ++
  "    <ellipse cx=\"25\" cy=\"25\" rx=\"25\" ry=\"25\" fill=\"#fafafa\" stroke=\"none\"/>\n" ++
  "    <path d=\"M 38.08 40.38 L 31.77 34.19 L 29.2 36.81 L 27.24 27.37 L 36.75 29.12 L 34.2 31.72 L 40.51 37.9 Z M 23.92 28.37 L 17.74 34.68 L 20.36 37.25 L 10.92 39.21 L 12.67 29.71 L 15.26 32.25 L 21.45 25.95 Z M 12.02 9.57 L 18.33 15.76 L 20.89 13.14 L 22.86 22.58 L 13.35 20.83 L 15.9 18.24 L 9.59 12.05 Z M 25.91 21.51 L 32.1 15.2 L 29.48 12.63 L 38.92 10.67 L 37.17 20.17 L 34.58 17.62 L 28.39 23.94 Z M 25 0 C 11.2 0 0 11.2 0 25 C 0 38.8 11.2 50 25 50 C 38.8 50 50 38.8 50 25 C 50 11.2 38.8 0 25 0 Z M 25 0.63 C 38.46 0.63 49.37 11.54 49.37 25 C 49.37 38.46 38.46 49.37 25 49.37 C 11.54 49.37 0.63 38.46 0.63 25 C 0.63 11.54 11.54 0.63 25 0.63 Z\" fill=\"#005073\" stroke=\"none\"/>\n" ++
  "  </g>\n" ++
  "  <g id=\"switch\" transform=\"translate(-25, -25)\">\n" ++
  "    <path d=\"M 3.07 0 C 1.38 0 0 1.37 0 3.05 L 0 46.95 C 0 48.63 1.38 50 3.07 50 L 46.93 50 C 48.62 50 50 48.63 50 46.95 L 50 3.05 C 50 1.37 48.62 0 46.93 0 Z\" fill=\"#fafafa\" stroke=\"none\"/>\n" ++
  "    <path d=\"M 23.38 40.52 L 23.38 36.53 L 12.78 36.53 L 12.78 33.39 L 3.75 38.71 L 12.78 43.96 L 12.78 40.52 Z M 28.32 21.46 L 28.32 17.48 L 17.73 17.48 L 17.73 14.33 L 8.7 19.66 L 17.73 24.9 L 17.73 21.46 Z M 22.38 31.06 L 22.38 27.08 L 32.98 27.08 L 32.98 23.93 L 42 29.26 L 32.98 34.51 L 32.98 31.06 Z M 26.96 12.32 L 26.96 8.34 L 37.55 8.34 L 37.55 5.2 L 46.58 10.52 L 37.55 15.77 L 37.55 12.32 Z M 3.07 0 C 1.38 0 0 1.37 0 3.05 L 0 46.95 C 0 48.63 1.38 50 3.07 50 L 46.93 50 C 48.62 50 50 48.63 50 46.95 L 50 3.05 C 50 1.37 48.62 0 46.93 0 Z M 3.07 1.38 L 46.93 1.38 C 47.88 1.38 48.62 2.11 48.62 3.05 L 48.62 46.95 C 48.62 47.89 47.88 48.62 46.93 48.62 L 3.07 48.62 C 2.12 48.62 1.38 47.89 1.38 46.95 L 1.38 3.05 C 1.38 2.11 2.12 1.38 3.07 1.38 Z\" fill=\"#005073\" stroke=\"none\"/>\n" ++
  "  </g>\n" ++
  "  <g id=\"cloud\" transform=\"translate(-64, -40)\">\n" ++
  "    <path d=\"M 30 20 C 6 20 0 40 19.2 44 C 0 52.8 21.6 72 37.2 64 C 48 80 84 80 96 64 C 120 64 120 48 105 40 C 120 24 96 8 75 16 C 60 4 36 4 30 20 Z\" fill=\"#ffffff\" stroke=\"#000000\" stroke-miterlimit=\"10\"/>\n" ++
  "  </g>\n" ++
  "  <path id=\"arrow-marker\" d=\"M 0 0 L 10 5 L 0 10 z\"/>\n" ++
  "  <marker id=\"arrow\" viewBox=\"0 0 10 10\" refX=\"8\" refY=\"5\" markerWidth=\"6\" markerHeight=\"6\" markerUnits=\"strokeWidth\" orient=\"auto-start-reverse\" fill=\"context-stroke\"><use xlink:href=\"#arrow-marker\"/></marker>"

/-- Model of `renderToSvg` (source lines 251–275): `content` is
`elements.join('\n')` and `defsContent` is `defsElements.join('\n  ')`,
inlined into the template. -/
def renderToSvg (title : String) (width height : ℚ) (elements : List String) (defsElements : List String) : String :=
  "<!-- Rendered with node-librenms-weathermap -->\n<svg xmlns=\"http://www.w3.org/2000/svg\" xmlns:xlink=\"http://www.w3.org/1999/xlink\" viewBox=\"0 0 " ++ fmtQ width ++ " " ++ fmtQ height ++ "\" font-family=\"sans-serif\">\n<defs>\n" ++ staticDefs ++ "\n  " ++ joinSep "\n  " defsElements ++ "\n</defs>\n<title>" ++ xmlescape title ++ "</title>\n" ++ joinSep "\n" elements ++ "\n</svg>"

/-- Model of `[...new Set(list)]` (source line 420): keep the first
occurrence of each element, in insertion order. -/
def dedupFirst : List String → List String
  | [] => []
  | x :: xs => x :: dedupFirst (xs.filter (fun y => y ≠ x))
termination_by l => l.length
decreasing_by
  exact Nat.lt_succ_of_le (List.length_filter_le _ _)

/-- The `arrowElements` accumulated by `render`'s connection loop (source
lines 406–413): per-connection fragments in connection order. -/
def connectionArrowElements (renderData : RenderData) : List String :=
  renderData.connections.flatMap (fun c => (renderConnection c renderData.colors).arrowElements)

/-- The `labelElements` accumulated by `render`'s connection loop. -/
def connectionLabelElements (renderData : RenderData) : List String :=
  renderData.connections.flatMap (fun c => (renderConnection c renderData.colors).labelElements)

/-- The `defsElements` accumulated by `render`'s connection loop. -/
def connectionDefsElements (renderData : RenderData) : List String :=
  renderData.connections.flatMap (fun c => (renderConnection c renderData.colors).defsElements)

/-- The deduplicated defs block content `[...new Set(defsElements)]`
(source line 420). -/
def documentDefs (renderData : RenderData) : List String :=
  dedupFirst (connectionDefsElements renderData)

/-- The `elements` list built by `render` (source lines 399–419) without its
final entry, the timestamp element: background, title, sites, arrows, labels,
devices, in push order. -/
def coreElements (renderData : RenderData) : List String :=
  [renderBackground renderData.width renderData.height,
   renderDiagramTitle renderData.title]
  ++ renderData.sites.map renderSite
  ++ connectionArrowElements renderData
  ++ connectionLabelElements renderData
  ++ renderData.devices.map renderDevice

/-- Model of `render` (source lines 398–421).  The loops pushing per-connection
fragments become `flatMap`s, which produce the same concatenation order. -/
def render (renderData : RenderData) (now : String) : String :=
  renderToSvg renderData.title renderData.width renderData.height
    (coreElements renderData ++ [renderDate renderData now])
    (documentDefs renderData)

/-! ## Spec-side formulas and decompositions used to state the claims -/

/-- Transcription of the spec's unit direction vector `u = (to-from)/L`
(x component), written over plain rationals for comparison with the code's
`normalizedVectorX`. -/
def specUnitVectorX (c : ConnectionData) : ℚ := (c.to_x - c.from_x) / connLength c

/-- Transcription of the spec's unit direction vector (y component). -/
def specUnitVectorY (c : ConnectionData) : ℚ := (c.to_y - c.from_y) / connLength c

/-- Transcription of the spec's default outbound label anchor: midpoint
offset along `-u` by `half label width + 8 + strokeWidth*6` (label width 72). -/
def specDefaultAnchorOut (c : ConnectionData) : ℚ × ℚ :=
  (middleX c - specUnitVectorX c * (72 / 2 + 8 + getStrokeWidth c.speed * 6),
   middleY c - specUnitVectorY c * (72 / 2 + 8 + getStrokeWidth c.speed * 6))

/-- Transcription of the spec's default inbound label anchor (along `+u`). -/
def specDefaultAnchorIn (c : ConnectionData) : ℚ × ℚ :=
  (middleX c + specUnitVectorX c * (72 / 2 + 8 + getStrokeWidth c.speed * 6),
   middleY c + specUnitVectorY c * (72 / 2 + 8 + getStrokeWidth c.speed * 6))

/-- Transcription of the spec's overlap-avoidance outbound anchor: offset
`(12 + strokeWidth*6) / |u.y|` along `-u`. -/
def specOverlapAnchorOut (c : ConnectionData) : ℚ × ℚ :=
  (middleX c - specUnitVectorX c * ((12 + getStrokeWidth c.speed * 6) / |specUnitVectorY c|),
   middleY c - specUnitVectorY c * ((12 + getStrokeWidth c.speed * 6) / |specUnitVectorY c|))

/-- Transcription of the spec's overlap-avoidance inbound anchor (along `+u`). -/
def specOverlapAnchorIn (c : ConnectionData) : ℚ × ℚ :=
  (middleX c + specUnitVectorX c * ((12 + getStrokeWidth c.speed * 6) / |specUnitVectorY c|),
   middleY c + specUnitVectorY c * ((12 + getStrokeWidth c.speed * 6) / |specUnitVectorY c|))

/-- The opening part of the timestamp `text` element (source line 395 before
the interpolated date). -/
def dateTextOpen (renderData : RenderData) : String :=
  "<text x=\"" ++ fmtQ (renderData.width - 8) ++ "\" y=\"" ++ fmtQ (renderData.height - 8) ++ "\" text-anchor=\"end\" font-size=\"12\" fill=\"#000000\" stroke=\"none\">"

/-- Everything `render` emits before the interpolated timestamp text: the
document template through the defs block and title, all core elements, and
the opening tag of the timestamp element.  Depends only on the `RenderData`,
not on the clock. -/
def renderDocumentHead (renderData : RenderData) : String :=
  "<!-- Rendered with node-librenms-weathermap -->\n<svg xmlns=\"http://www.w3.org/2000/svg\" xmlns:xlink=\"http://www.w3.org/1999/xlink\" viewBox=\"0 0 " ++ fmtQ renderData.width ++ " " ++ fmtQ renderData.height ++ "\" font-family=\"sans-serif\">\n<defs>\n" ++ staticDefs ++ "\n  " ++ joinSep "\n  " (documentDefs renderData) ++ "\n</defs>\n<title>" ++ xmlescape renderData.title ++ "</title>\n" ++ joinSep "\n" (coreElements renderData) ++ "\n" ++ dateTextOpen renderData

/-- Everything `render` emits after the interpolated timestamp text. -/
def renderDocumentTail : String := "</text>" ++ "\n</svg>"

/-- The connection of the spec's end-to-end scenario: endpoints (100,100) and
(100,300), speed `10G`, outbound 5,000,000,000 bps, inbound 1,000,000,000 bps. -/
def scenarioConnection : ConnectionData :=
  { from_x := 100, from_y := 100, to_x := 100, to_y := 300,
    speed := "10G", outboundTraffic := 5000000000, inboundTraffic := 1000000000 }

/-- A connection whose endpoints coincide (degenerate zero-length case). -/
def degenerateConnection : ConnectionData :=
  { from_x := 5, from_y := 7, to_x := 5, to_y := 7,
    speed := "1G", outboundTraffic := -1, inboundTraffic := -1 }

/-- Concrete input with two connections whose arrows all resolve to the same
color, used to exhibit marker deduplication. -/
def twoConnectionData : RenderData :=
  { title := "map", width := 400, height := 400, devices := [], sites := [],
    connections := [scenarioConnection, scenarioConnection],
    colors := DEFAULT_COLORS }

/-! ## Helper lemmas -/

theorem strData_append (a b : String) : (a ++ b).data = a.data ++ b.data := rfl

theorem strAppend_assoc (a b c : String) : a ++ b ++ c = a ++ (b ++ c) :=
  String.ext (by simp only [strData_append, List.append_assoc])

theorem joinSep_append_last (s y : String) :
    ∀ (l : List String), l ≠ [] → joinSep s (l ++ [y]) = joinSep s l ++ s ++ y
  | [], h => absurd rfl h
  | [_], _ => rfl
  | x :: a :: as, _ => by
    have ih := joinSep_append_last s y (a :: as) (by simp)
    show x ++ s ++ joinSep s ((a :: as) ++ [y]) = x ++ s ++ joinSep s (a :: as) ++ s ++ y
    rw [ih]
    simp only [strAppend_assoc]

theorem mem_dedupFirst {a : String} : ∀ {l : List String}, a ∈ dedupFirst l ↔ a ∈ l := by
  intro l
  induction l using dedupFirst.induct with
  | case1 => simp [dedupFirst]
  | case2 x xs ih =>
    rw [dedupFirst]
    constructor
    · intro h
      rcases List.mem_cons.mp h with rfl | h2
      · exact List.mem_cons_self _ _
      · exact List.mem_cons_of_mem _ (List.mem_filter.mp (ih.mp h2)).1
    · intro h
      rcases List.mem_cons.mp h with rfl | h2
      · exact List.mem_cons_self _ _
      · by_cases hax : a = x
        · exact hax ▸ List.mem_cons_self _ _
        · refine List.mem_cons_of_mem _ (ih.mpr (List.mem_filter.mpr ⟨h2, ?_⟩))
          simpa using hax

theorem nodup_dedupFirst : ∀ (l : List String), (dedupFirst l).Nodup := by
  intro l
  induction l using dedupFirst.induct with
  | case1 => simp [dedupFirst]
  | case2 x xs ih =>
    rw [dedupFirst]
    refine List.nodup_cons.mpr ⟨?_, ih⟩
    intro hmem
    have hx := mem_dedupFirst.mp hmem
    simp [List.mem_filter] at hx

theorem ratSqrt_pos {q : ℚ} (h : 0 < q) : 0 < ratSqrt q := by
  rw [ratSqrt, if_neg (not_le.mpr h)]
  have hnum : 0 < q.num := Rat.num_pos.mpr h
  have hden : 0 < q.den := q.pos
  have hprod : q.num.toNat * q.den ≠ 0 := by
    have : 0 < q.num.toNat := by omega
    positivity
  have hsqrt : 0 < Nat.sqrt (q.num.toNat * q.den) :=
    Nat.pos_of_ne_zero (fun h0 => hprod (Nat.sqrt_eq_zero.mp h0))
  apply div_pos
  · exact_mod_cast hsqrt
  · exact_mod_cast hden

theorem connLength_pos {c : ConnectionData}
    (h : (c.from_x, c.from_y) ≠ (c.to_x, c.to_y)) : 0 < connLength c := by
  rw [connLength]
  apply ratSqrt_pos
  have hne : c.to_x - c.from_x ≠ 0 ∨ c.to_y - c.from_y ≠ 0 := by
    by_contra hcon
    push_neg at hcon
    exact h (by
      have h1 := sub_eq_zero.mp hcon.1
      have h2 := sub_eq_zero.mp hcon.2
      rw [Prod.mk.injEq]
      exact ⟨h1.symm, h2.symm⟩)
  rcases hne with hx | hy
  · have h1 : 0 < (c.to_x - c.from_x) ^ 2 := pow_two_pos_of_ne_zero hx
    have h2 : (0:ℚ) ≤ (c.to_y - c.from_y) ^ 2 := sq_nonneg _
    linarith
  · have h1 : 0 < (c.to_y - c.from_y) ^ 2 := pow_two_pos_of_ne_zero hy
    have h2 : (0:ℚ) ≤ (c.to_x - c.from_x) ^ 2 := sq_nonneg _
    linarith

/-! ## Claim C1 -/

/-- C1: `getStrokeColor` is claimed to return the color of the largest
threshold `≤ t`.  The code does not: when the qualifying threshold is the
number `0`, the JavaScript `speed || fallback` treats it as falsy and falls
back to the smallest threshold.  At traffic `0` under the default table the
largest threshold `≤ 0` is `0` with color `#000000`, yet the code answers
`#cccccc`, the `-1` inactive band's color — so the documented `0` band is
unreachable and active sub-1-Mbps links are painted with the inactive
color. -/
theorem getStrokeColor_zero_band :
    getStrokeColor 0 DEFAULT_COLORS = "#cccccc" ∧
    List.lookup (0 : Int) DEFAULT_COLORS = some "#000000" ∧
    (sortDesc (DEFAULT_COLORS.map Prod.fst)).find? (fun s : Int => decide ((s : ℚ) ≤ 0)) =
      some 0 ∧
    getStrokeColor 0 DEFAULT_COLORS ≠ "#000000" := by
  refine ⟨?_, by decide, ?_, ?_⟩
  · norm_num [getStrokeColor, DEFAULT_COLORS, sortDesc, insertDesc, jsOr, lookupColor,
      List.find?]
    decide
  · norm_num [DEFAULT_COLORS, sortDesc, insertDesc, List.find?]
  · norm_num [getStrokeColor, DEFAULT_COLORS, sortDesc, insertDesc, jsOr, lookupColor,
      List.find?]
    decide

/-! ## Claim C2 -/

/-- C2 counterexample: in the end-to-end scenario the inbound traffic is
1,000,000,000 bps, which is above the highest default threshold 1e8, so the
inbound arrow is `#ff0000` — not `#cccc00` as claimed, and not distinct from
the outbound color. -/
theorem scenario_inbound_color_counterexample :
    getStrokeColor scenarioConnection.inboundTraffic DEFAULT_COLORS = "#ff0000" ∧
    getStrokeColor scenarioConnection.inboundTraffic DEFAULT_COLORS ≠ "#cccc00" := by
  constructor <;>
  · norm_num [getStrokeColor, DEFAULT_COLORS, sortDesc, insertDesc, jsOr, lookupColor,
      List.find?, scenarioConnection]
    decide

/-- C2 as amended: in the scenario the stroke width is 4, the
vertical-overlap rule is active (span-y 200 > 48, span-x 0 < 192), both
arrows resolve to the same color `#ff0000` (both traffic values lie in the
`≥ 1e8` band), and the labels read `5.00 Gbps` and `1.00 Gbps`. -/
theorem scenario_end_to_end :
    getStrokeWidth scenarioConnection.speed = 4 ∧
    spanY scenarioConnection = 200 ∧
    spanX scenarioConnection = 0 ∧
    vertOverlap scenarioConnection ∧
    getStrokeColor scenarioConnection.outboundTraffic DEFAULT_COLORS = "#ff0000" ∧
    getStrokeColor scenarioConnection.inboundTraffic DEFAULT_COLORS = "#ff0000" ∧
    formatTraffic scenarioConnection.outboundTraffic = "5.00 Gbps" ∧
    formatTraffic scenarioConnection.inboundTraffic = "1.00 Gbps" := by
  refine ⟨?_, ?_, ?_, ?_, ?_, ?_, ?_, ?_⟩
  · decide
  · norm_num [spanY, scenarioConnection]
  · norm_num [spanX, scenarioConnection]
  · norm_num [vertOverlap, spanY, spanX, scenarioConnection]
  · norm_num [getStrokeColor, DEFAULT_COLORS, sortDesc, insertDesc, jsOr, lookupColor,
      List.find?, scenarioConnection]
    decide
  · norm_num [getStrokeColor, DEFAULT_COLORS, sortDesc, insertDesc, jsOr, lookupColor,
      List.find?, scenarioConnection]
    decide
  · norm_num [formatTraffic, toFixed2, pad2, scenarioConnection]
    decide
  · norm_num [formatTraffic, toFixed2, pad2, scenarioConnection]
    decide

/-! ## Claim C3 -/

/-- C3 counterexample: `formatTraffic(99999)` is claimed to be
`"99.99 kbps"`, but `toFixed(2)` rounds to nearest, and `99.999` rounds to
`100.00`. -/
theorem formatTraffic_99999_counterexample :
    formatTraffic 99999 = "100.00 kbps" ∧ formatTraffic 99999 ≠ "99.99 kbps" := by
  constructor <;>
  · norm_num [formatTraffic, toFixed2, pad2]
    decide

/-- C3 as amended: negative traffic is `Inactive`; nonnegative traffic is
printed with exactly two decimals and the unit chosen by the `1e5`/`1e8`
cuts (kbps, Mbps, Gbps); the boundary values are `99999 → "100.00 kbps"`
(rounded to nearest, not truncated), `100000 → "0.10 Mbps"`,
`100000000 → "0.10 Gbps"`, `-1 → "Inactive"`. -/
theorem formatTraffic_spec :
    (∀ t : ℚ, t < 0 → formatTraffic t = "Inactive") ∧
    formatTraffic 99999 = "100.00 kbps" ∧
    formatTraffic 100000 = "0.10 Mbps" ∧
    formatTraffic 100000000 = "0.10 Gbps" ∧
    formatTraffic (-1) = "Inactive" ∧
    (∀ t : ℚ, 0 ≤ t → ∃ n k : Nat, k < 100 ∧
      formatTraffic t = toString n ++ "." ++ pad2 k ++
        (if t < 100000 then " kbps" else if t < 100000000 then " Mbps" else " Gbps")) := by
  refine ⟨?_, ?_, ?_, ?_, ?_, ?_⟩
  case refine_2 =>
    norm_num [formatTraffic, toFixed2, pad2]
    decide
  case refine_3 =>
    norm_num [formatTraffic, toFixed2, pad2]
    decide
  case refine_4 =>
    norm_num [formatTraffic, toFixed2, pad2]
    decide
  case refine_5 =>
    norm_num [formatTraffic]
  case refine_1 =>
    intro t ht
    rw [formatTraffic, if_pos ht]
  case refine_6 =>
    intro t ht
    have h0 : ¬t < 0 := not_lt.mpr ht
    rw [formatTraffic, if_neg h0]
    by_cases h1 : t < 100000
    · rw [if_pos h1, if_pos h1]
      exact ⟨(⌊t / 1000 * 100 + 1/2⌋).toNat / 100, (⌊t / 1000 * 100 + 1/2⌋).toNat % 100,
        Nat.mod_lt _ (by norm_num), rfl⟩
    · rw [if_neg h1, if_neg h1]
      by_cases h2 : t < 100000000
      · rw [if_pos h2, if_pos h2]
        exact ⟨(⌊t / 1000000 * 100 + 1/2⌋).toNat / 100, (⌊t / 1000000 * 100 + 1/2⌋).toNat % 100,
          Nat.mod_lt _ (by norm_num), rfl⟩
      · rw [if_neg h2, if_neg h2]
        exact ⟨(⌊t / 1000000000 * 100 + 1/2⌋).toNat / 100,
          (⌊t / 1000000000 * 100 + 1/2⌋).toNat % 100,
          Nat.mod_lt _ (by norm_num), rfl⟩

/-- C3 witness: the quantified parts of `formatTraffic_spec` instantiated at
concrete inputs. -/
theorem formatTraffic_spec_witness :
    formatTraffic (-5) = "Inactive" ∧
    (∃ n k : Nat, k < 100 ∧
      formatTraffic 50000 = toString n ++ "." ++ pad2 k ++
        (if (50000:ℚ) < 100000 then " kbps"
         else if (50000:ℚ) < 100000000 then " Mbps" else " Gbps")) :=
  ⟨formatTraffic_spec.1 (-5) (by norm_num),
   formatTraffic_spec.2.2.2.2.2 50000 (by norm_num)⟩

/-! ## Claim C7 -/

/-- C7: the stroke width is the fixed table `10M→0.5, 100M→1, 1G→2, 10G→4,
40G→6, 100G→8`, and any speed outside the enumerated set yields `0`. -/
theorem strokeWidth_table :
    (getStrokeWidth "10M" = 1/2 ∧ getStrokeWidth "100M" = 1 ∧ getStrokeWidth "1G" = 2 ∧
     getStrokeWidth "10G" = 4 ∧ getStrokeWidth "40G" = 6 ∧ getStrokeWidth "100G" = 8) ∧
    ∀ speed : String,
      speed ∉ (["10M", "100M", "1G", "10G", "40G", "100G"] : List String) →
      getStrokeWidth speed = 0 := by
  refine ⟨⟨by norm_num [getStrokeWidth], by decide, by decide, by decide, by decide,
    by decide⟩, ?_⟩
  intro s hs
  simp only [List.mem_cons, List.not_mem_nil, or_false, not_or] at hs
  obtain ⟨h1, h2, h3, h4, h5, h6⟩ := hs
  simp [getStrokeWidth, h1, h2, h3, h4, h5, h6]

/-- C7 witness: a speed outside the enumerated set gets stroke width `0`. -/
theorem strokeWidth_table_witness :
    ("25G" : String) ∉ (["10M", "100M", "1G", "10G", "40G", "100G"] : List String) ∧
    getStrokeWidth "25G" = 0 :=
  ⟨by decide, strokeWidth_table.2 "25G" (by decide)⟩

/-! ## Claim C8 -/

/-- C8 counterexample: the default band table has eight entries, not seven
(the claim itself lists eight keys). -/
theorem defaultColors_not_seven :
    DEFAULT_COLORS.length = 8 ∧ DEFAULT_COLORS.length ≠ 7 := by
  refine ⟨by decide, by decide⟩

/-- C8 as amended: when no color configuration is supplied the built-in
default table is used, and it is an eight-entry table whose threshold keys
are exactly `-1, 0, 1e6, 1e7, 2.5e7, 5e7, 7.5e7, 1e8`. -/
theorem defaultColors_table :
    resolveColors none = DEFAULT_COLORS ∧
    DEFAULT_COLORS.map Prod.fst =
      [-1, 0, 1000000, 10000000, 25000000, 50000000, 75000000, 100000000] ∧
    DEFAULT_COLORS.length = 8 := by
  refine ⟨rfl, by decide, by decide⟩

/-! ## Claim C4 -/

/-- C4: for every connection of nonzero length, the two traffic-label anchors
follow the spec's overlap-avoidance formula (offset `(12 + strokeWidth*6) /
abs u.y` along ∓u) exactly when the vertical span exceeds 48 and the
horizontal span is below 192, and the spec's default formula (offset
`72/2 + 8 + strokeWidth*6` along ∓u) at every other span combination. -/
theorem label_anchor_formulas (c : ConnectionData)
    (h : (c.from_x, c.from_y) ≠ (c.to_x, c.to_y)) :
    ((outboundTrafficLabelX c, outboundTrafficLabelY c) =
      if vertOverlap c then
        (some (specOverlapAnchorOut c).1, some (specOverlapAnchorOut c).2)
      else
        (some (specDefaultAnchorOut c).1, some (specDefaultAnchorOut c).2)) ∧
    ((inboundTrafficLabelX c, inboundTrafficLabelY c) =
      if vertOverlap c then
        (some (specOverlapAnchorIn c).1, some (specOverlapAnchorIn c).2)
      else
        (some (specDefaultAnchorIn c).1, some (specDefaultAnchorIn c).2)) := by
  have hL : 0 < connLength c := connLength_pos h
  have hLne : connLength c ≠ 0 := ne_of_gt hL
  have hux : normalizedVectorX c = some (specUnitVectorX c) := by
    simp [normalizedVectorX, jdiv, hLne, specUnitVectorX]
  have huy : normalizedVectorY c = some (specUnitVectorY c) := by
    simp [normalizedVectorY, jdiv, hLne, specUnitVectorY]
  by_cases hv : vertOverlap c
  · have hdy : c.to_y - c.from_y ≠ 0 := by
      intro h0
      have h48 := hv.1
      rw [spanY, h0, abs_zero] at h48
      norm_num at h48
    have huy0 : specUnitVectorY c ≠ 0 := div_ne_zero hdy hLne
    have hfac : labelFactor c =
        some ((12 + getStrokeWidth c.speed * 6) / |specUnitVectorY c|) := by
      rw [labelFactor, huy]
      simp [jabs, jdiv, abs_eq_zero, huy0]
    constructor <;>
      simp [outboundTrafficLabelX, outboundTrafficLabelY, inboundTrafficLabelX,
        inboundTrafficLabelY, hv, hux, huy, hfac, jsub, jadd, jmul,
        specOverlapAnchorOut, specOverlapAnchorIn]
  · constructor <;>
      simp [outboundTrafficLabelX, outboundTrafficLabelY, inboundTrafficLabelX,
        inboundTrafficLabelY, hv, hux, huy, jsub, jadd, jmul,
        specDefaultAnchorOut, specDefaultAnchorIn, defaultLabelOffset, trafficTextWidth]

/-- C4 witness: the anchor equations instantiated at the end-to-end scenario
connection, whose endpoints differ. -/
theorem label_anchor_formulas_witness :
    ((outboundTrafficLabelX scenarioConnection, outboundTrafficLabelY scenarioConnection) =
      if vertOverlap scenarioConnection then
        (some (specOverlapAnchorOut scenarioConnection).1,
         some (specOverlapAnchorOut scenarioConnection).2)
      else
        (some (specDefaultAnchorOut scenarioConnection).1,
         some (specDefaultAnchorOut scenarioConnection).2)) ∧
    ((inboundTrafficLabelX scenarioConnection, inboundTrafficLabelY scenarioConnection) =
      if vertOverlap scenarioConnection then
        (some (specOverlapAnchorIn scenarioConnection).1,
         some (specOverlapAnchorIn scenarioConnection).2)
      else
        (some (specDefaultAnchorIn scenarioConnection).1,
         some (specDefaultAnchorIn scenarioConnection).2)) :=
  label_anchor_formulas scenarioConnection (by
    intro h0
    have := congrArg Prod.snd h0
    norm_num [scenarioConnection] at this)

/-! ## Claim C5 -/

/-- C5 counterexample: at a zero-length connection the code's unit direction
vector is `NaN` (`none`), not the zero vector the claim describes, and the
label anchors — which a zero vector would put at the midpoint — are `NaN` as
well, so the traffic-label markup interpolates the string `NaN` instead of
midpoint coordinates. -/
theorem degenerate_zero_vector_counterexample :
    normalizedVectorX degenerateConnection = none ∧
    normalizedVectorY degenerateConnection = none ∧
    normalizedVectorX degenerateConnection ≠ some 0 ∧
    normalizedVectorY degenerateConnection ≠ some 0 ∧
    (renderConnection degenerateConnection DEFAULT_COLORS).labelElements =
      [renderTraffic none none degenerateConnection.outboundTraffic,
       renderTraffic none none degenerateConnection.inboundTraffic] ∧
    jstr (jsub none (some (12 * 6 / 2))) = "NaN" := by
  have hlen : connLength degenerateConnection = 0 := by
    norm_num [connLength, degenerateConnection, ratSqrt]
  have hnx : normalizedVectorX degenerateConnection = none := by
    simp [normalizedVectorX, jdiv, hlen]
  have hny : normalizedVectorY degenerateConnection = none := by
    simp [normalizedVectorY, jdiv, hlen]
  have hox : outboundTrafficLabelX degenerateConnection = none := by
    rw [outboundTrafficLabelX]
    split <;> simp [hnx, jsub, jmul]
  have hoy : outboundTrafficLabelY degenerateConnection = none := by
    rw [outboundTrafficLabelY]
    split <;> simp [hny, jsub, jmul]
  have hix : inboundTrafficLabelX degenerateConnection = none := by
    rw [inboundTrafficLabelX]
    split <;> simp [hnx, jadd, jmul]
  have hiy : inboundTrafficLabelY degenerateConnection = none := by
    rw [inboundTrafficLabelY]
    split <;> simp [hny, jadd, jmul]
  refine ⟨hnx, hny, by simp [hnx], by simp [hny], ?_, rfl⟩
  simp [renderConnection, hox, hoy, hix, hiy]

/-- C5 as amended: for every zero-length connection (and any color table) the
geometry computation is total, the unit direction vector is `NaN` (`none`),
the midpoint coincides with the shared endpoint, and the two arrows are
coincident: both paths run from the shared point to the identical midpoint. -/
theorem degenerate_connection_arrows (c : ConnectionData) (colors : ColorDefinition)
    (hx : c.from_x = c.to_x) (hy : c.from_y = c.to_y) :
    normalizedVectorX c = none ∧ normalizedVectorY c = none ∧
    middleX c = c.from_x ∧ middleY c = c.from_y ∧
    (renderConnection c colors).arrowElements =
      [arrowPath c.from_x c.from_y c.from_x c.from_y
        (getStrokeColor c.outboundTraffic colors) (getStrokeWidth c.speed),
       arrowPath c.from_x c.from_y c.from_x c.from_y
        (getStrokeColor c.inboundTraffic colors) (getStrokeWidth c.speed)] := by
  have hdx : c.to_x - c.from_x = 0 := sub_eq_zero.mpr hx.symm
  have hdy : c.to_y - c.from_y = 0 := sub_eq_zero.mpr hy.symm
  have hlen : connLength c = 0 := by
    rw [connLength, hdx, hdy]
    norm_num [ratSqrt]
  have hmx : middleX c = c.from_x := by simp [middleX, hdx]
  have hmy : middleY c = c.from_y := by simp [middleY, hdy]
  refine ⟨by simp [normalizedVectorX, jdiv, hlen], by simp [normalizedVectorY, jdiv, hlen],
    hmx, hmy, ?_⟩
  simp [renderConnection, hmx, hmy, ← hx, ← hy]

/-- C5 witness: the amended statement at a concrete degenerate connection. -/
theorem degenerate_connection_arrows_witness :
    normalizedVectorX degenerateConnection = none ∧
    normalizedVectorY degenerateConnection = none ∧
    middleX degenerateConnection = degenerateConnection.from_x ∧
    middleY degenerateConnection = degenerateConnection.from_y ∧
    (renderConnection degenerateConnection DEFAULT_COLORS).arrowElements =
      [arrowPath degenerateConnection.from_x degenerateConnection.from_y
        degenerateConnection.from_x degenerateConnection.from_y
        (getStrokeColor degenerateConnection.outboundTraffic DEFAULT_COLORS)
        (getStrokeWidth degenerateConnection.speed),
       arrowPath degenerateConnection.from_x degenerateConnection.from_y
        degenerateConnection.from_x degenerateConnection.from_y
        (getStrokeColor degenerateConnection.inboundTraffic DEFAULT_COLORS)
        (getStrokeWidth degenerateConnection.speed)] :=
  degenerate_connection_arrows degenerateConnection DEFAULT_COLORS rfl rfl

/-! ## Claim C6 -/

/-- C6: whenever some connection's arrow resolves to a color, exactly one
marker definition for that color appears in the assembled document's defs
list, however many arrows reference it. -/
theorem marker_dedup (renderData : RenderData) (color : String)
    (h : ∃ c ∈ renderData.connections,
      getStrokeColor c.outboundTraffic renderData.colors = color ∨
      getStrokeColor c.inboundTraffic renderData.colors = color) :
    List.count (createArrowMarker color) (documentDefs renderData) = 1 := by
  obtain ⟨c, hc, hcol⟩ := h
  have hmem : createArrowMarker color ∈ connectionDefsElements renderData := by
    rw [connectionDefsElements]
    refine List.mem_flatMap.mpr ⟨c, hc, ?_⟩
    rcases hcol with h1 | h1 <;> simp [renderConnection, ← h1]
  rw [documentDefs]
  exact List.count_eq_one_of_mem (nodup_dedupFirst _) (mem_dedupFirst.mpr hmem)

/-- C6 witness: two connections whose arrows all resolve to `#ff0000` yield
exactly one `#ff0000` marker definition. -/
theorem marker_dedup_witness :
    List.count (createArrowMarker "#ff0000") (documentDefs twoConnectionData) = 1 :=
  marker_dedup twoConnectionData "#ff0000"
    ⟨scenarioConnection, by simp [twoConnectionData], Or.inl (by
      norm_num [twoConnectionData, scenarioConnection, getStrokeColor, DEFAULT_COLORS,
        sortDesc, insertDesc, jsOr, lookupColor, List.find?]
      decide)⟩

/-! ## Claim C9 -/

/-- C9: `render` is deterministic apart from the embedded timestamp — its
output decomposes as a head and tail computed from the `RenderData` alone,
with the escaped timestamp text in between, so two renders of the same input
agree byte-for-byte outside the timestamp. -/
theorem render_timestamp_locality (renderData : RenderData) (now : String) :
    render renderData now =
      renderDocumentHead renderData ++ xmlescape now ++ renderDocumentTail := by
  have hne : coreElements renderData ≠ [] := by simp [coreElements]
  rw [render, renderToSvg, renderDocumentHead, renderDocumentTail, renderDate, dateTextOpen,
    joinSep_append_last _ _ _ hne]
  simp only [strAppend_assoc]

/-! ## Claim C10 -/

/-- C10: every marker id referenced by an arrow path's `marker-end`
attribute (`arrow-` plus the resolved color without its `#`) has a marker
definition with that id in the assembled document's defs list: the arrow
string ends with the `url(#id)` reference and the corresponding
`createArrowMarker` markup, whose id is the same `getArrowMarkerId color`,
is present in `documentDefs`. -/
theorem marker_references_defined (renderData : RenderData) (a : String)
    (h : a ∈ connectionArrowElements renderData) :
    ∃ (color : String) (p : String),
      a = p ++ ("url(#" ++ (getArrowMarkerId color ++ ")\"/>")) ∧
      createArrowMarker color ∈ documentDefs renderData := by
  rw [connectionArrowElements] at h
  obtain ⟨c, hc, ha⟩ := List.mem_flatMap.mp h
  have hdefs : ∀ color, createArrowMarker color ∈
      (renderConnection c renderData.colors).defsElements →
      createArrowMarker color ∈ documentDefs renderData := by
    intro color hin
    rw [documentDefs]
    refine mem_dedupFirst.mpr ?_
    rw [connectionDefsElements]
    exact List.mem_flatMap.mpr ⟨c, hc, hin⟩
  simp only [renderConnection, List.mem_cons, List.not_mem_nil, or_false] at ha
  rcases ha with ha | ha
  · exact ⟨getStrokeColor c.outboundTraffic renderData.colors, _, by rw [ha, arrowPath],
      hdefs _ (by simp [renderConnection])⟩
  · exact ⟨getStrokeColor c.inboundTraffic renderData.colors, _, by rw [ha, arrowPath],
      hdefs _ (by simp [renderConnection])⟩

/-- C10 witness: the first arrow of the two-connection document carries a
`url(#...)` reference whose marker definition is present in the defs list. -/
theorem marker_references_defined_witness :
    ∃ (color : String) (p : String),
      arrowPath scenarioConnection.from_x scenarioConnection.from_y
          (middleX scenarioConnection) (middleY scenarioConnection)
          (getStrokeColor scenarioConnection.outboundTraffic twoConnectionData.colors)
          (getStrokeWidth scenarioConnection.speed) =
        p ++ ("url(#" ++ (getArrowMarkerId color ++ ")\"/>")) ∧
      createArrowMarker color ∈ documentDefs twoConnectionData :=
  marker_references_defined twoConnectionData _ (by
    rw [connectionArrowElements]
    exact List.mem_flatMap.mpr ⟨scenarioConnection, by simp [twoConnectionData],
      by simp [renderConnection]⟩)

end Weathermap
